import Mathlib

/-!
Verification of the remote command execution engine of the
`mytest-multihost` / `pytest-multihost` repository.

The development shallowly embeds the Python source:

* `shlexSplit` embeds `shlex.split` (POSIX mode, `whitespace_split`,
  no comment handling), the tokenizer used by `SSHCommand.__init__`
  and `BaseHost.run_command`.
* `requoteTok` / `escapeToken` embed the per-token re-quoting map and
  the chained `replace` calls of `SSHCommand.__init__`.
* `CmdState`, `wait`, `send`, `stdout_text`, `stderr_text`,
  `set_stdout_text` embed the `SSHCommand` runtime: machine state is
  explicit, the background drainer threads are represented by their
  observable effect at the join points, and fallible operations return
  `Except`.
* `exec_command`, `file_exists`, `get_file_contents`, `run_command`
  embed the corresponding `BaseHost` methods of `host.py`; the remote
  side is abstracted as a function from the command token vector to a
  process outcome.
-/

deriving instance DecidableEq for Except

namespace Multihost

/-- The backslash character, written numerically to keep source escapes
readable. -/
def backslashCh : Char := Char.ofNat 92

/-- The single-quote character. -/
def squoteCh : Char := Char.ofNat 39

/-- The double-quote character. -/
def dquoteCh : Char := Char.ofNat 34

/-- `shlex.whitespace` is the four characters space, tab, CR, LF. -/
def isWsCh (c : Char) : Bool :=
  c == ' ' || c == Char.ofNat 9 || c == Char.ofNat 13 || c == Char.ofNat 10

/-- `shlex.quotes` in POSIX mode: single and double quote. -/
def isQuoteCh (c : Char) : Bool := c == squoteCh || c == dquoteCh

/-- Lexer mode of the `shlex` state machine: between tokens, inside a
word, inside a quoted section (carrying the quote character), or right
after an escape character (carrying the quote to return into, `none`
when the escape occurred outside quotes). -/
inductive SMode where
  | ws : SMode
  | word : SMode
  | quo : Char → SMode
  | esc : Option Char → SMode
deriving Repr, DecidableEq

/-- Full lexer state: mode, the token being accumulated, whether the
current token saw a quote (POSIX `quoted` flag), and the tokens emitted
so far. -/
structure SState where
  mode : SMode
  tok : List Char
  quoted : Bool
  acc : List String
deriving Repr, DecidableEq

/-- One character step of `shlex.read_token` (POSIX mode with
`whitespace_split`, the configuration used by `shlex.split`). -/
def stepChar (st : SState) (c : Char) : SState :=
  match st.mode with
  | .ws =>
    if isWsCh c then st
    else if c == backslashCh then { st with mode := .esc none }
    else if isQuoteCh c then { st with mode := .quo c, quoted := true }
    else { st with mode := .word, tok := st.tok ++ [c] }
  | .word =>
    if isWsCh c then
      if !st.tok.isEmpty || st.quoted then
        { mode := .ws, tok := [], quoted := false, acc := st.acc ++ [String.mk st.tok] }
      else { st with mode := .ws }
    else if isQuoteCh c then { st with mode := .quo c, quoted := true }
    else if c == backslashCh then { st with mode := .esc none }
    else { st with tok := st.tok ++ [c] }
  | .quo q =>
    if c == q then { st with mode := .word }
    else if c == backslashCh && q == dquoteCh then { st with mode := .esc (some q) }
    else { st with tok := st.tok ++ [c] }
  | .esc ret =>
    match ret with
    | none => { st with mode := .word, tok := st.tok ++ [c] }
    | some q =>
      if c == backslashCh || c == q then
        { st with mode := .quo q, tok := st.tok ++ [c] }
      else
        { st with mode := .quo q, tok := st.tok ++ [backslashCh, c] }

/-- End-of-input handling of `shlex`: an open quote or pending escape is
a `ValueError`; otherwise a pending word is emitted (an empty trailing
word only when it was quoted). -/
def flushSplit (st : SState) : Except String (List String) :=
  match st.mode with
  | .quo _ => .error "No closing quotation"
  | .esc _ => .error "No escaped character"
  | .ws => .ok st.acc
  | .word =>
    .ok (if !st.tok.isEmpty || st.quoted then st.acc ++ [String.mk st.tok] else st.acc)

/-- Initial lexer state. -/
def initSState : SState := { mode := .ws, tok := [], quoted := false, acc := [] }

/-- Embedding of Python `shlex.split` as used throughout the source
(POSIX rules, split on whitespace only, comments disabled). -/
def shlexSplit (s : String) : Except String (List String) :=
  flushSplit (s.data.foldl stepChar initSState)

/-- `List.mapM` specialised to `Except`, mirroring Python iteration that
stops at the first raised exception. -/
def mapExcept (f : α → Except ε β) : List α → Except ε (List β)
  | [] => .ok []
  | a :: l =>
    match f a with
    | .error e => .error e
    | .ok b =>
      match mapExcept f l with
      | .error e => .error e
      | .ok bs => .ok (b :: bs)

/-- Character-level embedding of Python `x.replace(chr(92), chr(92)*2)`:
every backslash is doubled, all other characters are kept. -/
def doubleBackslashes : List Char → List Char
  | [] => []
  | c :: rest =>
    (if c == backslashCh then [backslashCh, backslashCh] else [c]) ++ doubleBackslashes rest

/-- String form of `doubleBackslashes`. -/
def replaceBackslashStr (s : String) : String := String.mk (doubleBackslashes s.data)

/-- The escaping applied to every token of the final argument vector in
`SSHCommand.__init__`: the backslash-doubling `replace` is applied
twice in a row. -/
def escapeToken (s : String) : String := replaceBackslashStr (replaceBackslashStr s)

/-- Reference transformation: every backslash becomes exactly four
backslashes.  Used to characterise `escapeToken`. -/
def quadBackslashes : List Char → List Char
  | [] => []
  | c :: rest =>
    (if c == backslashCh then
      [backslashCh, backslashCh, backslashCh, backslashCh] else [c]) ++ quadBackslashes rest

/-- Reference transformation claimed by the specification: every
backslash becomes exactly two backslashes. -/
def twoBackslashes (s : String) : String := String.mk (doubleBackslashes s.data)

/-- The re-quoting map of `SSHCommand.__init__`: a token is kept when it
shell-tokenizes to exactly one word, otherwise it is wrapped in double
quotes; tokenization failure propagates as a `ValueError`. -/
def requoteTok (x : String) : Except String String :=
  match shlexSplit x with
  | .error e => .error e
  | .ok ws => .ok (if ws.length == 1 then x else "\"" ++ x ++ "\"")

/-- `identity = identity if identity is not None else "~/.ssh/id_rsa"`. -/
def resolveIdentity : Option String → String
  | none => "~/.ssh/id_rsa"
  | some i => i

/-- The fixed part of the ssh invocation string built by
`SSHCommand.__init__`, including the trailing space before the target
hostname. -/
def sshHead (user identity : String) : String :=
  "ssh -T -l " ++ user ++ " -i " ++ identity ++
    " -o UserKnownHostsFile=/dev/null -o ControlMaster=auto" ++
    " -o StrictHostKeyChecking=no -o ControlPersist=10m" ++
    " -o ControlPath=/tmp/mytest-%r@%h:%p "

/-- The complete formatted ssh command string of `SSHCommand.__init__`. -/
def sshFormatString (user identity hostname : String) : String :=
  sshHead user identity ++ hostname

/-- Standard UTF-8 encoding of one character. -/
def utf8EncodeChar (c : Char) : List Nat :=
  let n := c.toNat
  if n < 0x80 then [n]
  else if n < 0x800 then [0xC0 + n / 64, 0x80 + n % 64]
  else if n < 0x10000 then [0xE0 + n / 4096, 0x80 + n / 64 % 64, 0x80 + n % 64]
  else [0xF0 + n / 262144, 0x80 + n / 4096 % 64, 0x80 + n / 64 % 64, 0x80 + n % 64]

/-- Embedding of Python `str.encode` for the engine default codec:
standard UTF-8, byte values as `Nat`. -/
def utf8Encode (s : String) : List Nat :=
  s.data.foldr (fun c acc => utf8EncodeChar c ++ acc) []

/-- A UTF-8 continuation byte. -/
def contByte (b : Nat) : Bool := 0x80 ≤ b && b < 0xC0

/-- Strict UTF-8 decoder (rejects overlong forms, surrogates and
out-of-range code points), the failure mode of Python
`bytes.decode("utf-8")`: `none` models a raised `UnicodeDecodeError`. -/
def utf8DecodeList : List Nat → Option (List Char)
  | [] => some []
  | b :: rest =>
    if b < 0x80 then
      (utf8DecodeList rest).map fun cs => Char.ofNat b :: cs
    else if b < 0xC2 then none
    else if b < 0xE0 then
      match rest with
      | b1 :: rest1 =>
        if contByte b1 then
          (utf8DecodeList rest1).map fun cs =>
            Char.ofNat ((b - 0xC0) * 64 + (b1 - 0x80)) :: cs
        else none
      | [] => none
    else if b < 0xF0 then
      match rest with
      | b1 :: b2 :: rest2 =>
        if contByte b1 && contByte b2 then
          let cp := (b - 0xE0) * 4096 + (b1 - 0x80) * 64 + (b2 - 0x80)
          if 0x800 ≤ cp && !(0xD800 ≤ cp && cp < 0xE000) then
            (utf8DecodeList rest2).map fun cs => Char.ofNat cp :: cs
          else none
        else none
      | _ => none
    else if b < 0xF5 then
      match rest with
      | b1 :: b2 :: b3 :: rest3 =>
        if contByte b1 && contByte b2 && contByte b3 then
          let cp := (b - 0xF0) * 262144 + (b1 - 0x80) * 4096 + (b2 - 0x80) * 64 + (b3 - 0x80)
          if 0x10000 ≤ cp && cp < 0x110000 then
            (utf8DecodeList rest3).map fun cs => Char.ofNat cp :: cs
          else none
        else none
      | _ => none
    else none

/-- Decoding of an accumulated byte buffer.  The engine is always used
with its default codec `utf-8` (or the platform default, also UTF-8),
so decoding is modelled as strict UTF-8 regardless of the stored
encoding label. -/
def decodeBytes (l : List Nat) : Option String := (utf8DecodeList l).map String.mk

/-- Python exceptions surfaced by the embedded code. -/
inductive PyExc where
  | valueError (msg : String)
  | ioError
  | unicodeDecodeError
deriving Repr, DecidableEq

/-- A Python value that is either text or raw bytes, the two possible
results of the output accessors. -/
inductive PyValue where
  | str (s : String)
  | bytes (b : List Nat)
deriving Repr, DecidableEq

/-- Behaviour of the spawned remote process: its final exit code and the
byte chunks each drainer thread will have accumulated at end-of-stream. -/
structure ProcSpec where
  exitCode : Int
  outChunks : List (List Nat)
  errChunks : List (List Nat)
deriving Repr, DecidableEq

/-- The primitive steps performed by `SSHCommand.wait`, recorded as an
event trace so ordering can be stated. -/
inductive WaitEvent where
  | closeStdin
  | joinOut
  | closeStdout
  | joinErr
  | closeStderr
  | procWait
deriving Repr, DecidableEq

/-- Mutable state of an `SSHCommand` object.  `out_data` / `err_data`
are the accumulator lists owned by the drainer threads, `returncode`
is `None` until the process has been waited on, and the Boolean flags
record which close/join steps have been performed. -/
structure CmdState where
  encoding : Option String
  returncode : Option Int
  out_data : List (List Nat)
  err_data : List (List Nat)
  stdinClosed : Bool
  stdoutClosed : Bool
  stderrClosed : Bool
  outJoined : Bool
  errJoined : Bool
  stdinWritten : List Nat
  proc : ProcSpec
deriving Repr, DecidableEq

/-- Python truthiness of the stored encoding (`if self.encoding:`). -/
def pyTruthyEnc : Option String → Bool
  | none => false
  | some s => !s.isEmpty

/-- State of a freshly constructed command: process spawned, drainers
started, nothing accumulated yet, exit code unknown. -/
def initState (encoding : Option String) (p : ProcSpec) : CmdState :=
  { encoding := encoding, returncode := none, out_data := [], err_data := [],
    stdinClosed := false, stdoutClosed := false, stderrClosed := false,
    outJoined := false, errJoined := false, stdinWritten := [], proc := p }

/-- `self.cmd.stdin.close()`. -/
def closeStdinOp (s : CmdState) : CmdState := { s with stdinClosed := true }

/-- `self.out_thread.join()`: blocks until the stdout drainer has
observed end-of-stream, after which `out_data` holds every chunk the
process wrote. -/
def joinOutOp (s : CmdState) : CmdState :=
  { s with outJoined := true, out_data := s.proc.outChunks }

/-- `self.cmd.stdout.close()`. -/
def closeStdoutOp (s : CmdState) : CmdState := { s with stdoutClosed := true }

/-- `self.err_thread.join()`. -/
def joinErrOp (s : CmdState) : CmdState :=
  { s with errJoined := true, err_data := s.proc.errChunks }

/-- `self.cmd.stderr.close()`. -/
def closeStderrOp (s : CmdState) : CmdState := { s with stderrClosed := true }

/-- `self.cmd.wait()`: blocks until the process terminates and yields
its exit code (`Popen.wait` returns the cached code on repeat calls). -/
def popenWaitOp (s : CmdState) : CmdState × Int :=
  ({ s with returncode := some s.proc.exitCode }, s.proc.exitCode)

/-- The body of `SSHCommand.wait`, run when the guard passes: the six
steps in source order, with the emitted event trace. -/
def waitSeq (s : CmdState) : CmdState × Int × List WaitEvent :=
  let s1 := closeStdinOp s
  let s2 := joinOutOp s1
  let s3 := closeStdoutOp s2
  let s4 := joinErrOp s3
  let s5 := closeStderrOp s4
  let p := popenWaitOp s5
  (p.1, p.2,
    [WaitEvent.closeStdin, WaitEvent.joinOut, WaitEvent.closeStdout,
     WaitEvent.joinErr, WaitEvent.closeStderr, WaitEvent.procWait])

/-- `SSHCommand.wait`.  The guard is the Python truthiness test
`if not self.returncode:` - the close/join sequence runs when the code
is still `None` or when it is `0`; only a stored non-zero code skips
it.  Returns the (possibly re-computed) exit code and the trace of
steps performed by this call. -/
def wait (s : CmdState) : CmdState × Int × List WaitEvent :=
  match s.returncode with
  | none => waitSeq s
  | some n => if n == 0 then waitSeq s else (s, n, [])

/-- `SSHCommand.send` at byte level: a falsy (empty) payload is a
no-op; writing to a closed stdin raises `ValueError`; otherwise the
bytes are written and flushed. -/
def send (s : CmdState) (data : List Nat) : Except PyExc CmdState :=
  if data.isEmpty then .ok s
  else if s.stdinClosed then .error (.valueError "write to closed file")
  else .ok { s with stdinWritten := s.stdinWritten ++ data }

/-- `SSHCommand.stdout_text`: empty string before finalization; with a
truthy encoding, try to decode the concatenated chunks and silently
fall back to raw bytes on failure; without encoding, raw bytes. -/
def stdout_text (c : CmdState) : Except PyExc PyValue :=
  match c.returncode with
  | none => .ok (.str "")
  | some _ =>
    let stdout := c.out_data.flatten
    if pyTruthyEnc c.encoding then
      match decodeBytes stdout with
      | some t => .ok (.str t)
      | none => .ok (.bytes stdout)
    else .ok (.bytes stdout)

/-- `SSHCommand.stderr_text`: empty string before finalization;
afterwards the concatenated chunks are decoded unconditionally (with
the configured or the default codec) and a decode failure propagates
as `UnicodeDecodeError`. -/
def stderr_text (c : CmdState) : Except PyExc PyValue :=
  match c.returncode with
  | none => .ok (.str "")
  | some _ =>
    match decodeBytes c.err_data.flatten with
    | some t => .ok (.str t)
    | none => .error .unicodeDecodeError

/-- The `stdout_text` property setter of `mytest_multihost`: resets the
stdout accumulator to the single encoded chunk of the assigned text. -/
def set_stdout_text (c : CmdState) (v : String) : CmdState :=
  { c with out_data := [utf8Encode v] }

/-- A command argument as accepted by `SSHCommand.__init__` and
`BaseHost` methods: either a shell string or a Popen-style vector. -/
inductive CmdArg where
  | str (s : String)
  | argv (l : List String)
deriving Repr, DecidableEq

/-- Result of a successful `SSHCommand.__init__`: the final `Popen`
argument vector, the initial runtime state, and the tokenized command
(used to key the remote behaviour). -/
structure SpawnedCmd where
  argvFinal : List String
  state : CmdState
  cmdToks : List String
deriving Repr, DecidableEq

/-- `SSHCommand.__init__`: tokenize a string command, build and
tokenize the ssh invocation, re-quote every token, double-escape
backslashes twice, then spawn.  Any `shlex` failure propagates as a
`ValueError` before a process is spawned (an `.error` result means
`Popen` was never reached).  The remote behaviour of the spawned
process is supplied by `oracle`, keyed on the command tokens. -/
def sshCommandInit (hostname user : String) (identity : Option String)
    (command : CmdArg) (encoding : Option String)
    (oracle : List String → ProcSpec) : Except PyExc SpawnedCmd :=
  match (match command with
         | .str s => shlexSplit s
         | .argv l => .ok l) with
  | .error e => .error (.valueError e)
  | .ok ctoks =>
    match shlexSplit (sshFormatString user (resolveIdentity identity) hostname) with
    | .error e => .error (.valueError e)
    | .ok pre =>
      match mapExcept requoteTok (pre ++ ctoks) with
      | .error e => .error (.valueError e)
      | .ok requoted =>
        .ok { argvFinal := requoted.map escapeToken,
              state := initState encoding (oracle ctoks),
              cmdToks := ctoks }

/-- Configuration of a `BaseHost` plus the behaviour of the remote
side, abstracted as a function from the command token vector to the
outcome of the spawned process. -/
structure HostEnv where
  hostname : String
  ssh_username : String
  ssh_key_filename : Option String
  test_dir : String
  env_sh_path : String
  command_prelude : String
  oracle : List String → ProcSpec

/-- Log records produced by the host layer (`self.log.info(...)`). -/
inductive LogMsg where
  | returncodeMsg (n : Int)
  | stderrMsg (v : PyValue)
  | statMsg (fn : String)
  | getMsg (fn : String)
  | putMsg (fn : String)
  | mkdirMsg (p : String)
deriving Repr, DecidableEq

/-- Result of one `_exec_command` call: the command object, the log
lines it emitted, and the command token vector it executed. -/
structure ExecOut where
  state : CmdState
  logs : List LogMsg
  cmd : List String
deriving Repr, DecidableEq

/-- `BaseHost._exec_command`: construct the `SSHCommand`, send the
optional stdin payload, and unless `bg` is set call `wait()`, log the
exit code, and on a non-zero code also log the decoded stderr text
(whose decoding can itself raise). -/
def exec_command (env : HostEnv) (command : CmdArg)
    (stdin_data : Option (List Nat)) (bg : Bool)
    (encoding : Option String) : Except PyExc ExecOut :=
  match sshCommandInit env.hostname env.ssh_username env.ssh_key_filename
      command encoding env.oracle with
  | .error e => .error e
  | .ok sp =>
    match (match stdin_data with
           | some d => send sp.state d
           | none => .ok sp.state) with
    | .error e => .error e
    | .ok st1 =>
      if bg then .ok { state := st1, logs := [], cmd := sp.cmdToks }
      else
        match wait st1 with
        | (st2, rc, _) =>
          if rc == 0 then
            .ok { state := st2, logs := [.returncodeMsg rc], cmd := sp.cmdToks }
          else
            match stderr_text st2 with
            | .error e => .error e
            | .ok v =>
              .ok { state := st2, logs := [.returncodeMsg rc, .stderrMsg v],
                    cmd := sp.cmdToks }

/-- Observable outcome of one host-level call: its Python result (or
raised exception), the commands actually executed on the remote side,
and the log lines emitted. -/
structure HostCallOut (α : Type) where
  result : Except PyExc α
  execs : List (List String)
  logs : List LogMsg

/-- `BaseHost.file_exists`: run `test -f <filename>` in the foreground
and report whether its exit code was zero. -/
def file_exists (env : HostEnv) (fn : String) : HostCallOut Bool :=
  match exec_command env (.str ("test -f " ++ fn)) none false (some "utf-8") with
  | .error e => { result := .error e, execs := [], logs := [.statMsg fn] }
  | .ok r =>
    { result := .ok (r.state.returncode == some (0 : Int)),
      execs := [r.cmd], logs := .statMsg fn :: r.logs }

/-- `BaseHost.get_file_contents`: raise `IOError` when the existence
probe fails (no further command runs); otherwise run `cat <filename>`
in raw-bytes mode, return `None` when it exits non-zero, and otherwise
return the joined bytes, decoded when the encoding argument is truthy
(the source tests `if encoding:`, so the falsy empty string behaves
like no encoding).  Decoding is modelled by the strict UTF-8 codec
`decodeBytes`; `utf-8` is the only encoding the repository passes
here. -/
def get_file_contents (env : HostEnv) (fn : String)
    (encoding : Option String) : HostCallOut (Option PyValue) :=
  let fe := file_exists env fn
  match fe.result with
  | .error e => { result := .error e, execs := fe.execs, logs := fe.logs }
  | .ok false => { result := .error .ioError, execs := fe.execs, logs := fe.logs }
  | .ok true =>
    let logs1 := fe.logs ++ [.getMsg fn]
    match exec_command env (.str ("cat " ++ fn)) none false none with
    | .error e => { result := .error e, execs := fe.execs, logs := logs1 }
    | .ok r =>
      let execs2 := fe.execs ++ [r.cmd]
      let logs2 := logs1 ++ r.logs
      match r.state.returncode with
      | some n =>
        if n == 0 then
          let contents := r.state.out_data.flatten
          if pyTruthyEnc encoding then
            match decodeBytes contents with
            | some s => { result := .ok (some (.str s)), execs := execs2, logs := logs2 }
            | none => { result := .error .unicodeDecodeError, execs := execs2, logs := logs2 }
          else { result := .ok (some (.bytes contents)), execs := execs2, logs := logs2 }
        else { result := .ok none, execs := execs2, logs := logs2 }
      | none =>
        let contents := r.state.out_data.flatten
        if pyTruthyEnc encoding then
          match decodeBytes contents with
          | some s => { result := .ok (some (.str s)), execs := execs2, logs := logs2 }
          | none => { result := .error .unicodeDecodeError, execs := execs2, logs := logs2 }
        else { result := .ok (some (.bytes contents)), execs := execs2, logs := logs2 }

/-- `BaseHost.mkdir`: run `mkdir -p <path>` in the foreground, ignoring
the exit code. -/
def mkdir (env : HostEnv) (path : String) : HostCallOut Unit :=
  match exec_command env (.str ("mkdir -p " ++ path)) none false (some "utf-8") with
  | .error e => { result := .error e, execs := [], logs := [.mkdirMsg path] }
  | .ok r => { result := .ok (), execs := [r.cmd], logs := .mkdirMsg path :: r.logs }

/-- `BaseHost.run_command`: default the working directory to the
host's test directory, create it and prepend `cd .. && `, source the
generated `env.sh` when requested and present, prepend the command
prelude, wrap the user command in a subshell, and delegate to
`_exec_command`.  The `log_stdout` and `raiseonerr` parameters are
accepted but never consulted by the source. -/
def run_command (env : HostEnv) (argv : CmdArg) (set_env : Bool)
    (stdin_text : Option (List Nat)) (log_stdout : Bool) (raiseonerr : Bool)
    (cwd : Option String) (bg : Bool) : HostCallOut ExecOut :=
  let cwdR := match cwd with
              | none => env.test_dir
              | some c => c
  let step1 : HostCallOut String :=
    if !cwdR.isEmpty then
      let m := mkdir env cwdR
      match m.result with
      | .error e => { result := .error e, execs := m.execs, logs := m.logs }
      | .ok _ =>
        { result := .ok ("cd " ++ cwdR ++ " && "), execs := m.execs, logs := m.logs }
    else { result := .ok "", execs := [], logs := [] }
  match step1.result with
  | .error e => { result := .error e, execs := step1.execs, logs := step1.logs }
  | .ok pre1 =>
    let step2 : HostCallOut String :=
      if set_env then
        let fe := file_exists env env.env_sh_path
        match fe.result with
        | .error e => { result := .error e, execs := fe.execs, logs := fe.logs }
        | .ok true =>
          { result := .ok (pre1 ++ "source " ++ env.env_sh_path ++ " && "),
            execs := fe.execs, logs := fe.logs }
        | .ok false => { result := .ok pre1, execs := fe.execs, logs := fe.logs }
      else { result := .ok pre1, execs := [], logs := [] }
    match step2.result with
    | .error e =>
      { result := .error e, execs := step1.execs ++ step2.execs,
        logs := step1.logs ++ step2.logs }
    | .ok pre2 =>
      let pre3 := if !env.command_prelude.isEmpty
                  then pre2 ++ env.command_prelude ++ " && " else pre2
      let execsPre := step1.execs ++ step2.execs
      let logsPre := step1.logs ++ step2.logs
      match (match argv with
             | .str s =>
               match shlexSplit (pre3 ++ "( " ++ s ++ " )") with
               | .error e => Except.error (PyExc.valueError e)
               | .ok toks => Except.ok toks
             | .argv l =>
               match shlexSplit pre3 with
               | .error e => Except.error (PyExc.valueError e)
               | .ok preToks => Except.ok (preToks ++ ["("] ++ l ++ [")"])) with
      | .error e => { result := .error e, execs := execsPre, logs := logsPre }
      | .ok toks =>
        match exec_command env (.argv toks) stdin_text bg (some "utf-8") with
        | .error e => { result := .error e, execs := execsPre, logs := logsPre }
        | .ok r =>
          { result := .ok r, execs := execsPre ++ [r.cmd], logs := logsPre ++ r.logs }

/-- A character that `shlex` treats as an ordinary word constituent:
not whitespace, not a quote, not the escape character. -/
def simpleChar (c : Char) : Bool :=
  !(isWsCh c) && !(c == backslashCh) && !(isQuoteCh c)

theorem doubleBackslashes_append (l1 l2 : List Char) :
    doubleBackslashes (l1 ++ l2) = doubleBackslashes l1 ++ doubleBackslashes l2 := by
  induction l1 with
  | nil => rfl
  | cons c rest ih => simp [doubleBackslashes, ih]

theorem doubleBackslashes_twice (l : List Char) :
    doubleBackslashes (doubleBackslashes l) = quadBackslashes l := by
  induction l with
  | nil => rfl
  | cons c rest ih =>
    cases hc : c == backslashCh <;>
      simp [doubleBackslashes, quadBackslashes, hc, doubleBackslashes_append, ih]

theorem escapeToken_quad (s : String) :
    (escapeToken s).data = quadBackslashes s.data := by
  simp [escapeToken, replaceBackslashStr, doubleBackslashes_twice]

theorem doubleBackslashes_id (l : List Char)
    (h : ∀ c ∈ l, (c == backslashCh) = false) :
    doubleBackslashes l = l := by
  induction l with
  | nil => rfl
  | cons c rest ih =>
    have hc := h c (List.mem_cons_self c rest)
    simp [doubleBackslashes, hc, ih fun x hx => h x (List.mem_cons_of_mem c hx)]

theorem escapeToken_id (s : String)
    (h : ∀ c ∈ s.data, (c == backslashCh) = false) : escapeToken s = s := by
  have h1 : replaceBackslashStr s = s := by
    simp [replaceBackslashStr, doubleBackslashes_id s.data h]
  rw [escapeToken, h1, h1]

theorem mapExcept_ok_mem {f : α → Except ε β} {l : List α} {ys : List β} {x : α}
    (hm : mapExcept f l = .ok ys) (hx : x ∈ l) : ∃ y, f x = .ok y := by
  induction l generalizing ys with
  | nil => cases hx
  | cons a rest ih =>
    rcases List.mem_cons.mp hx with hxa | hxr
    · subst hxa
      cases hfa : f x with
      | error e => rw [mapExcept, hfa] at hm; cases hm
      | ok b => exact ⟨b, rfl⟩
    · cases hfa : f a with
      | error e => rw [mapExcept, hfa] at hm; cases hm
      | ok b =>
        rw [mapExcept, hfa] at hm
        cases hrest : mapExcept f rest with
        | error e => rw [hrest] at hm; cases hm
        | ok bs => exact ih hrest hxr

theorem mapExcept_error_of_mem {f : α → Except ε β} {l : List α} {x : α} {e : ε}
    (hx : x ∈ l) (he : f x = .error e) : ∃ e2, mapExcept f l = .error e2 := by
  cases hm : mapExcept f l with
  | error e2 => exact ⟨e2, rfl⟩
  | ok ys =>
    rcases mapExcept_ok_mem hm hx with ⟨y, hy⟩
    rw [he] at hy; cases hy

theorem mapExcept_append {f : α → Except ε β} {l1 l2 : List α} {ys1 ys2 : List β}
    (h1 : mapExcept f l1 = .ok ys1) (h2 : mapExcept f l2 = .ok ys2) :
    mapExcept f (l1 ++ l2) = .ok (ys1 ++ ys2) := by
  induction l1 generalizing ys1 with
  | nil => cases h1; simpa using h2
  | cons a rest ih =>
    cases hfa : f a with
    | error e => rw [mapExcept, hfa] at h1; cases h1
    | ok b =>
      rw [mapExcept, hfa] at h1
      cases hrest : mapExcept f rest with
      | error e => rw [hrest] at h1; cases h1
      | ok bs =>
        rw [hrest] at h1
        cases h1
        rw [List.cons_append, mapExcept, hfa, ih hrest]
        simp

theorem foldl_word_simple (cs : List Char) (h : ∀ c ∈ cs, simpleChar c = true)
    (tok : List Char) (q : Bool) (acc : List String) :
    List.foldl stepChar ⟨SMode.word, tok, q, acc⟩ cs =
      ⟨SMode.word, tok ++ cs, q, acc⟩ := by
  induction cs generalizing tok with
  | nil => simp
  | cons c rest ih =>
    have hc := h c (List.mem_cons_self c rest)
    simp only [simpleChar, Bool.and_eq_true, Bool.not_eq_true'] at hc
    obtain ⟨⟨hws, hbs⟩, hq⟩ := hc
    have hrest : ∀ x ∈ rest, simpleChar x = true :=
      fun x hx => h x (List.mem_cons_of_mem c hx)
    simp only [List.foldl_cons, stepChar, hws, hbs, hq, Bool.false_eq_true, if_false,
      ih hrest (tok ++ [c])]
    simp

theorem foldl_ws_simple (cs : List Char) (hne : cs ≠ [])
    (h : ∀ c ∈ cs, simpleChar c = true) (acc : List String) :
    flushSplit (List.foldl stepChar ⟨SMode.ws, [], false, acc⟩ cs) =
      .ok (acc ++ [String.mk cs]) := by
  cases cs with
  | nil => exact absurd rfl hne
  | cons c rest =>
    have hc := h c (List.mem_cons_self c rest)
    simp only [simpleChar, Bool.and_eq_true, Bool.not_eq_true'] at hc
    obtain ⟨⟨hws, hbs⟩, hq⟩ := hc
    have hrest : ∀ x ∈ rest, simpleChar x = true :=
      fun x hx => h x (List.mem_cons_of_mem c hx)
    have hstep : stepChar ⟨SMode.ws, [], false, acc⟩ c = ⟨SMode.word, [c], false, acc⟩ := by
      simp [stepChar, hws, hbs, hq]
    rw [List.foldl_cons, hstep, foldl_word_simple rest hrest [c] false acc]
    simp [flushSplit]

/-- For a nonempty token of ordinary characters, `shlex.split` returns
exactly that token. -/
theorem shlexSplit_simple (s : String) (hne : s.data ≠ [])
    (h : ∀ c ∈ s.data, simpleChar c = true) : shlexSplit s = .ok [s] := by
  have h1 := foldl_ws_simple s.data hne h []
  rw [shlexSplit, initSState]
  rw [h1]
  rfl

/-- For a nonempty token of ordinary characters, the re-quoting map of
`SSHCommand.__init__` keeps the token unchanged. -/
theorem requoteTok_simple (s : String) (hne : s.data ≠ [])
    (h : ∀ c ∈ s.data, simpleChar c = true) : requoteTok s = .ok s := by
  rw [requoteTok, shlexSplit_simple s hne h]
  simp

end Multihost

namespace Multihost

/-- The full event trace of one execution of the close/join sequence in
`SSHCommand.wait`. -/
def fullWaitTrace : List WaitEvent :=
  [WaitEvent.closeStdin, WaitEvent.joinOut, WaitEvent.closeStdout,
   WaitEvent.joinErr, WaitEvent.closeStderr, WaitEvent.procWait]

/-- A freshly launched command whose remote process exits with code 0. -/
def zeroExitState : CmdState := initState (some "utf-8") ⟨0, [[97]], [[98]]⟩

/-- C1 counterexample: for a command whose process exited with code 0,
a second call to `wait()` re-invokes the whole stdin-close /
thread-join / stream-close sequence (the guard `if not self.returncode`
treats a stored exit code 0 like an unset one), contradicting the
claim that the sequence is never re-invoked regardless of the first
exit code. -/
theorem wait_idempotent_cex :
    (wait zeroExitState).2.1 = 0 ∧
    (wait (wait zeroExitState).1).2.2 = fullWaitTrace ∧
    (wait (wait zeroExitState).1).2.2 ≠ ([] : List WaitEvent) := by
  decide

/-- C1 (amended): after a first `wait()` on a running command, a second
`wait()` always returns the same exit code; the close/join sequence is
skipped by the second call when the first exit code was non-zero, but
is re-invoked (harmlessly) when it was 0. -/
theorem wait_second_call (s : CmdState) (h : s.returncode = none) :
    (wait (wait s).1).2.1 = (wait s).2.1 ∧
    ((wait s).2.1 ≠ 0 → (wait (wait s).1).2.2 = ([] : List WaitEvent)) ∧
    ((wait s).2.1 = 0 → (wait (wait s).1).2.2 = fullWaitTrace) := by
  by_cases hz : s.proc.exitCode = 0 <;>
    simp [wait, h, waitSeq, closeStdinOp, joinOutOp, closeStdoutOp, joinErrOp,
          closeStderrOp, popenWaitOp, fullWaitTrace, hz]

/-- Witness for C1 at a command whose process exits with code 3. -/
theorem wait_second_call_witness :
    (initState (some "utf-8") ⟨3, [], []⟩).returncode = none ∧
    ((wait (wait (initState (some "utf-8") ⟨3, [], []⟩)).1).2.1 =
       (wait (initState (some "utf-8") ⟨3, [], []⟩)).2.1 ∧
     ((wait (initState (some "utf-8") ⟨3, [], []⟩)).2.1 ≠ 0 →
        (wait (wait (initState (some "utf-8") ⟨3, [], []⟩)).1).2.2 = ([] : List WaitEvent)) ∧
     ((wait (initState (some "utf-8") ⟨3, [], []⟩)).2.1 = 0 →
        (wait (wait (initState (some "utf-8") ⟨3, [], []⟩)).1).2.2 = fullWaitTrace)) :=
  ⟨rfl, wait_second_call (initState (some "utf-8") ⟨3, [], []⟩) rfl⟩

/-- C2: on a command still running (no exit code stored), `wait()`
performs exactly the sequence close stdin, join the stdout drainer,
close stdout, join the stderr drainer, close stderr, wait for the
process; it stores and returns the process exit code, and both
drainers have observed end-of-stream (their accumulators hold the
complete output) when it returns. -/
theorem wait_sequence (s : CmdState) (h : s.returncode = none) :
    (wait s).2.2 = fullWaitTrace ∧
    (wait s).2.1 = s.proc.exitCode ∧
    (wait s).1.returncode = some s.proc.exitCode ∧
    (wait s).1.stdinClosed = true ∧
    (wait s).1.outJoined = true ∧
    (wait s).1.errJoined = true ∧
    (wait s).1.stdoutClosed = true ∧
    (wait s).1.stderrClosed = true ∧
    (wait s).1.out_data = s.proc.outChunks ∧
    (wait s).1.err_data = s.proc.errChunks := by
  simp [wait, h, waitSeq, closeStdinOp, joinOutOp, closeStdoutOp, joinErrOp,
        closeStderrOp, popenWaitOp, fullWaitTrace]

/-- Witness for C2 at a running command with exit code 7 and one chunk
on each stream. -/
theorem wait_sequence_witness :
    (initState (some "utf-8") ⟨7, [[1]], [[2]]⟩).returncode = none ∧
    ((wait (initState (some "utf-8") ⟨7, [[1]], [[2]]⟩)).2.2 = fullWaitTrace ∧
     (wait (initState (some "utf-8") ⟨7, [[1]], [[2]]⟩)).2.1 =
       (initState (some "utf-8") ⟨7, [[1]], [[2]]⟩).proc.exitCode ∧
     (wait (initState (some "utf-8") ⟨7, [[1]], [[2]]⟩)).1.returncode =
       some (initState (some "utf-8") ⟨7, [[1]], [[2]]⟩).proc.exitCode ∧
     (wait (initState (some "utf-8") ⟨7, [[1]], [[2]]⟩)).1.stdinClosed = true ∧
     (wait (initState (some "utf-8") ⟨7, [[1]], [[2]]⟩)).1.outJoined = true ∧
     (wait (initState (some "utf-8") ⟨7, [[1]], [[2]]⟩)).1.errJoined = true ∧
     (wait (initState (some "utf-8") ⟨7, [[1]], [[2]]⟩)).1.stdoutClosed = true ∧
     (wait (initState (some "utf-8") ⟨7, [[1]], [[2]]⟩)).1.stderrClosed = true ∧
     (wait (initState (some "utf-8") ⟨7, [[1]], [[2]]⟩)).1.out_data =
       (initState (some "utf-8") ⟨7, [[1]], [[2]]⟩).proc.outChunks ∧
     (wait (initState (some "utf-8") ⟨7, [[1]], [[2]]⟩)).1.err_data =
       (initState (some "utf-8") ⟨7, [[1]], [[2]]⟩).proc.errChunks) :=
  ⟨rfl, wait_sequence (initState (some "utf-8") ⟨7, [[1]], [[2]]⟩) rfl⟩

/-- C7: before finalization (no exit code stored yet) both output
accessors return the empty string rather than raising. -/
theorem accessors_before_finalized (c : CmdState) (h : c.returncode = none) :
    stdout_text c = .ok (.str "") ∧ stderr_text c = .ok (.str "") := by
  simp [stdout_text, stderr_text, h]

/-- Witness for C7 at a freshly launched command with pending output. -/
theorem accessors_before_finalized_witness :
    (initState (some "utf-8") ⟨9, [[65]], [[66]]⟩).returncode = none ∧
    (stdout_text (initState (some "utf-8") ⟨9, [[65]], [[66]]⟩) = .ok (.str "") ∧
     stderr_text (initState (some "utf-8") ⟨9, [[65]], [[66]]⟩) = .ok (.str "")) :=
  ⟨rfl, accessors_before_finalized (initState (some "utf-8") ⟨9, [[65]], [[66]]⟩) rfl⟩

/-- A finalized command (exit code 0, one chunk per stream), obtained
by waiting on a fresh command. -/
def finalizedState : CmdState := (wait (initState (some "utf-8") ⟨0, [[97]], [[98]]⟩)).1

/-- C8 counterexample: the public `stdout_text` property setter of
`mytest_multihost.SSHCommand` replaces the accumulated stdout chunks
of a finalized command, so the finalized result is not read-only. -/
theorem result_mutation_cex :
    finalizedState.returncode = some 0 ∧
    (set_stdout_text finalizedState "zz").out_data ≠ finalizedState.out_data := by
  decide

/-- C8 (amended): on a finalized command, `wait()` and `send()` leave
the accumulated stdout chunks, stderr chunks and stored exit code
unchanged, but the public `stdout_text` setter replaces the stdout
accumulator with the single encoded chunk of the assigned text (it
leaves stderr and the exit code unchanged). -/
theorem finalized_readonly_amended (s : CmdState) (h : s.returncode = none) :
    ((wait (wait s).1).1.out_data = (wait s).1.out_data ∧
     (wait (wait s).1).1.err_data = (wait s).1.err_data ∧
     (wait (wait s).1).1.returncode = (wait s).1.returncode) ∧
    (∀ d s2, send (wait s).1 d = .ok s2 →
       s2.out_data = (wait s).1.out_data ∧ s2.err_data = (wait s).1.err_data ∧
       s2.returncode = (wait s).1.returncode) ∧
    (∀ v, (set_stdout_text (wait s).1 v).err_data = (wait s).1.err_data ∧
       (set_stdout_text (wait s).1 v).returncode = (wait s).1.returncode ∧
       (set_stdout_text (wait s).1 v).out_data = [utf8Encode v]) := by
  refine ⟨?_, ?_, ?_⟩
  · by_cases hz : s.proc.exitCode = 0 <;>
      simp [wait, h, waitSeq, closeStdinOp, joinOutOp, closeStdoutOp, joinErrOp,
            closeStderrOp, popenWaitOp, hz]
  · intro d s2 hsend
    by_cases hd : d.isEmpty
    · simp [send, hd] at hsend
      subst hsend
      exact ⟨rfl, rfl, rfl⟩
    · have hclosed : (wait s).1.stdinClosed = true := by
        simp [wait, h, waitSeq, closeStdinOp, joinOutOp, closeStdoutOp, joinErrOp,
              closeStderrOp, popenWaitOp]
      simp [send, hd, hclosed] at hsend
  · intro v
    exact ⟨rfl, rfl, rfl⟩

/-- Witness for C8 at a command whose process exits with code 4. -/
theorem finalized_readonly_amended_witness :
    (initState (some "utf-8") ⟨4, [[10]], [[20]]⟩).returncode = none ∧
    (((wait (wait (initState (some "utf-8") ⟨4, [[10]], [[20]]⟩)).1).1.out_data =
        (wait (initState (some "utf-8") ⟨4, [[10]], [[20]]⟩)).1.out_data ∧
      (wait (wait (initState (some "utf-8") ⟨4, [[10]], [[20]]⟩)).1).1.err_data =
        (wait (initState (some "utf-8") ⟨4, [[10]], [[20]]⟩)).1.err_data ∧
      (wait (wait (initState (some "utf-8") ⟨4, [[10]], [[20]]⟩)).1).1.returncode =
        (wait (initState (some "utf-8") ⟨4, [[10]], [[20]]⟩)).1.returncode) ∧
     (∀ d s2, send (wait (initState (some "utf-8") ⟨4, [[10]], [[20]]⟩)).1 d = .ok s2 →
        s2.out_data = (wait (initState (some "utf-8") ⟨4, [[10]], [[20]]⟩)).1.out_data ∧
        s2.err_data = (wait (initState (some "utf-8") ⟨4, [[10]], [[20]]⟩)).1.err_data ∧
        s2.returncode = (wait (initState (some "utf-8") ⟨4, [[10]], [[20]]⟩)).1.returncode) ∧
     (∀ v, (set_stdout_text (wait (initState (some "utf-8") ⟨4, [[10]], [[20]]⟩)).1 v).err_data =
        (wait (initState (some "utf-8") ⟨4, [[10]], [[20]]⟩)).1.err_data ∧
        (set_stdout_text (wait (initState (some "utf-8") ⟨4, [[10]], [[20]]⟩)).1 v).returncode =
          (wait (initState (some "utf-8") ⟨4, [[10]], [[20]]⟩)).1.returncode ∧
        (set_stdout_text (wait (initState (some "utf-8") ⟨4, [[10]], [[20]]⟩)).1 v).out_data =
          [utf8Encode v])) :=
  ⟨rfl, finalized_readonly_amended (initState (some "utf-8") ⟨4, [[10]], [[20]]⟩) rfl⟩

end Multihost

namespace Multihost

/-- A finalized command with undecodable bytes (0xFF) on both streams. -/
def undecodableState : CmdState := (wait (initState (some "utf-8") ⟨0, [[255]], [[255]]⟩)).1

/-- C3: on a finalized command with a configured (truthy) encoding, the
stdout accessor never raises - it returns the decoded text when the
concatenated chunks decode, and silently falls back to the raw bytes
when they do not - while the stderr accessor decodes unconditionally,
so a stderr decode failure propagates as a `UnicodeDecodeError`. -/
theorem stdout_stderr_decode (c : CmdState) (n : Int) (hr : c.returncode = some n)
    (he : pyTruthyEnc c.encoding = true) :
    (∀ e, stdout_text c ≠ .error e) ∧
    (decodeBytes c.out_data.flatten = none →
       stdout_text c = .ok (.bytes c.out_data.flatten)) ∧
    (∀ t, decodeBytes c.out_data.flatten = some t → stdout_text c = .ok (.str t)) ∧
    (decodeBytes c.err_data.flatten = none → stderr_text c = .error .unicodeDecodeError) ∧
    (∀ t, decodeBytes c.err_data.flatten = some t → stderr_text c = .ok (.str t)) := by
  refine ⟨?_, ?_, ?_, ?_, ?_⟩
  · intro e
    cases hd : decodeBytes c.out_data.flatten <;> simp [stdout_text, hr, he, hd]
  · intro hd
    simp [stdout_text, hr, he, hd]
  · intro t hd
    simp [stdout_text, hr, he, hd]
  · intro hd
    simp [stderr_text, hr, hd]
  · intro t hd
    simp [stderr_text, hr, hd]

/-- Witness for C3 at a finalized command whose two streams hold the
invalid UTF-8 byte 0xFF: stdout falls back to raw bytes, stderr
raises. -/
theorem stdout_stderr_decode_witness :
    undecodableState.returncode = some 0 ∧
    pyTruthyEnc undecodableState.encoding = true ∧
    stdout_text undecodableState = .ok (.bytes [255]) ∧
    stderr_text undecodableState = .error .unicodeDecodeError := by
  refine ⟨rfl, rfl, ?_, ?_⟩
  · exact (stdout_stderr_decode undecodableState 0 rfl rfl).2.1 (by decide)
  · exact (stdout_stderr_decode undecodableState 0 rfl rfl).2.2.2.1 (by decide)

/-- C4 counterexample: the claim says each backslash in a token becomes
exactly two backslashes, but the chained `replace` calls turn the
token a-backslash-b into a-4-backslashes-b, not a-2-backslashes-b
(which is what `twoBackslashes`, the claimed transformation, yields). -/
theorem escape_backslash_cex :
    escapeToken "a\\b" = "a\\\\\\\\b" ∧
    twoBackslashes "a\\b" = "a\\\\b" ∧
    escapeToken "a\\b" ≠ twoBackslashes "a\\b" := by
  decide

/-- C4 (amended): in the launcher command-vector construction, every
token that shell-tokenizes to exactly one word passes the re-quoting
step unchanged, every token that tokenizes to a different number of
words is wrapped in double quotes, and the subsequent escaping step
turns every backslash of every token into exactly four backslashes
(the doubling `replace` is applied twice). -/
theorem requote_escape_amended (x : String) (ws : List String)
    (h : shlexSplit x = .ok ws) :
    (ws.length = 1 → requoteTok x = .ok x) ∧
    (ws.length ≠ 1 → requoteTok x = .ok ("\"" ++ x ++ "\"")) ∧
    (escapeToken x).data = quadBackslashes x.data := by
  refine ⟨?_, ?_, escapeToken_quad x⟩
  · intro hl
    simp [requoteTok, h, hl]
  · intro hl
    simp [requoteTok, h, hl]

/-- Witness for C4 at the two-word token "a b" (re-quoted) together
with the escape characterisation at that token. -/
theorem requote_escape_amended_witness :
    shlexSplit "a b" = Except.ok ["a", "b"] ∧
    (((["a", "b"] : List String).length = 1 → requoteTok "a b" = .ok "a b") ∧
     ((["a", "b"] : List String).length ≠ 1 →
        requoteTok "a b" = .ok ("\"" ++ "a b" ++ "\"")) ∧
     (escapeToken "a b").data = quadBackslashes "a b".data) :=
  ⟨by decide, requote_escape_amended "a b" ["a", "b"] (by decide)⟩

/-- C10: the re-quoting step shell-tokenizes every token of the
assembled vector, so a command token that fails tokenization (for
example one containing an unbalanced quote) makes `SSHCommand`
construction fail with a `ValueError` before any process is spawned
(an `.error` result of `sshCommandInit` means `Popen` is never
reached); and a token that tokenizes to zero words is wrapped in
double quotes rather than passed through unchanged. -/
theorem tokenization_guard (hostname user : String) (identity : Option String)
    (command : List String) (oracle : List String → ProcSpec)
    (encoding : Option String) (x : String) (e : String)
    (hx : x ∈ command) (he : shlexSplit x = .error e) :
    (∃ msg, sshCommandInit hostname user identity (.argv command) encoding oracle =
       .error (.valueError msg)) ∧
    (∀ t, shlexSplit t = .ok [] → requoteTok t = .ok ("\"" ++ t ++ "\"")) := by
  constructor
  · have hreq : requoteTok x = .error e := by simp [requoteTok, he]
    cases hpre : shlexSplit (sshFormatString user (resolveIdentity identity) hostname) with
    | error e2 => exact ⟨e2, by simp [sshCommandInit, hpre]⟩
    | ok pre =>
      have hmem : x ∈ pre ++ command := List.mem_append_right pre hx
      rcases mapExcept_error_of_mem hmem hreq with ⟨e2, hmap⟩
      exact ⟨e2, by simp [sshCommandInit, hpre, hmap]⟩
  · intro t ht
    simp [requoteTok, ht]

/-- Witness for C10: the token a-doublequote-b has an unbalanced quote,
so construction fails; and the empty token is wrapped as two double
quotes. -/
theorem tokenization_guard_witness :
    ("a\"b" ∈ ["a\"b"]) ∧
    shlexSplit "a\"b" = .error "No closing quotation" ∧
    ((∃ msg, sshCommandInit "h" "root" none (.argv ["a\"b"]) (some "utf-8")
        (fun _ => ⟨0, [], []⟩) = .error (.valueError msg)) ∧
     (∀ t, shlexSplit t = .ok [] → requoteTok t = .ok ("\"" ++ t ++ "\""))) :=
  ⟨by decide, by decide,
   tokenization_guard "h" "root" none ["a\"b"] (fun _ => ⟨0, [], []⟩) (some "utf-8")
     "a\"b" "No closing quotation" (by decide) (by decide)⟩

end Multihost

namespace Multihost

/-- The sixteen fixed tokens of the ssh invocation built by
`SSHCommand.__init__` with the default user and identity, in order,
before the target hostname is appended. -/
def sshFixedToks : List String :=
  ["ssh", "-T", "-l", "root", "-i", "~/.ssh/id_rsa", "-o", "UserKnownHostsFile=/dev/null",
   "-o", "ControlMaster=auto", "-o", "StrictHostKeyChecking=no", "-o", "ControlPersist=10m",
   "-o", "ControlPath=/tmp/mytest-%r@%h:%p"]

set_option maxRecDepth 8000 in
/-- C9: for every launch with the default user and identity and an
ordinary hostname, the constructed transport vector is exactly the
fixed option list followed by the hostname: it disables the host key
file (`UserKnownHostsFile=/dev/null`), disables strict host key
checking, enables `ControlMaster=auto`, persists the control
connection for 10 minutes, uses the per-user/host/port control socket
path `/tmp/mytest-%r@%h:%p`, defaults the identity file to
`~/.ssh/id_rsa` and the user to `root`, and contains no port option
(`-p`), so the transport default port 22 applies.  The re-quoting and
escaping passes leave this vector unchanged. -/
theorem ssh_option_vector (hostname : String) (hne : hostname.data ≠ [])
    (hs : ∀ c ∈ hostname.data, simpleChar c = true) :
    shlexSplit (sshFormatString "root" (resolveIdentity none) hostname) =
      .ok (sshFixedToks ++ [hostname]) ∧
    mapExcept requoteTok (sshFixedToks ++ [hostname]) = .ok (sshFixedToks ++ [hostname]) ∧
    (sshFixedToks ++ [hostname]).map escapeToken = sshFixedToks ++ [hostname] ∧
    "UserKnownHostsFile=/dev/null" ∈ sshFixedToks ∧
    "StrictHostKeyChecking=no" ∈ sshFixedToks ∧
    "ControlMaster=auto" ∈ sshFixedToks ∧
    "ControlPersist=10m" ∈ sshFixedToks ∧
    "ControlPath=/tmp/mytest-%r@%h:%p" ∈ sshFixedToks ∧
    "root" ∈ sshFixedToks ∧ "~/.ssh/id_rsa" ∈ sshFixedToks ∧
    "-p" ∉ sshFixedToks ∧
    resolveIdentity none = "~/.ssh/id_rsa" := by
  have hbs : ∀ c ∈ hostname.data, (c == backslashCh) = false := by
    intro c hc
    have := hs c hc
    simp only [simpleChar, Bool.and_eq_true, Bool.not_eq_true'] at this
    exact this.1.2
  have hdata : (sshFormatString "root" (resolveIdentity none) hostname).data =
      (sshHead "root" "~/.ssh/id_rsa").data ++ hostname.data := rfl
  have hpre : List.foldl stepChar initSState (sshHead "root" "~/.ssh/id_rsa").data =
      ⟨SMode.ws, [], false, sshFixedToks⟩ := by decide
  refine ⟨?_, ?_, ?_, by decide, by decide, by decide, by decide, by decide,
    by decide, by decide, by decide, rfl⟩
  · rw [shlexSplit, hdata, List.foldl_append, hpre]
    exact foldl_ws_simple hostname.data hne hs sshFixedToks
  · have hfix : mapExcept requoteTok sshFixedToks = .ok sshFixedToks := by decide
    have hh : mapExcept requoteTok [hostname] = .ok [hostname] := by
      simp [mapExcept, requoteTok_simple hostname hne hs]
    exact mapExcept_append hfix hh
  · have hfix : sshFixedToks.map escapeToken = sshFixedToks := by decide
    simp only [List.map_append, List.map_cons, List.map_nil, hfix,
      escapeToken_id hostname hbs]

set_option maxRecDepth 8000 in
/-- Witness for C9 at the hostname example.com. -/
theorem ssh_option_vector_witness :
    ("example.com".data ≠ []) ∧
    (∀ c ∈ "example.com".data, simpleChar c = true) ∧
    (shlexSplit (sshFormatString "root" (resolveIdentity none) "example.com") =
       .ok (sshFixedToks ++ ["example.com"]) ∧
     mapExcept requoteTok (sshFixedToks ++ ["example.com"]) =
       .ok (sshFixedToks ++ ["example.com"]) ∧
     (sshFixedToks ++ ["example.com"]).map escapeToken = sshFixedToks ++ ["example.com"] ∧
     "UserKnownHostsFile=/dev/null" ∈ sshFixedToks ∧
     "StrictHostKeyChecking=no" ∈ sshFixedToks ∧
     "ControlMaster=auto" ∈ sshFixedToks ∧
     "ControlPersist=10m" ∈ sshFixedToks ∧
     "ControlPath=/tmp/mytest-%r@%h:%p" ∈ sshFixedToks ∧
     "root" ∈ sshFixedToks ∧ "~/.ssh/id_rsa" ∈ sshFixedToks ∧
     "-p" ∉ sshFixedToks ∧
     resolveIdentity none = "~/.ssh/id_rsa") :=
  ⟨by decide, by decide, ssh_option_vector "example.com" (by decide) (by decide)⟩

end Multihost

namespace Multihost

/-- A host on which every remote command exits with code 1 and writes
the bytes of "err" to stderr. -/
def noRaiseEnv : HostEnv :=
  { hostname := "h", ssh_username := "root", ssh_key_filename := none,
    test_dir := "/tmp/t", env_sh_path := "/tmp/t/env.sh", command_prelude := "",
    oracle := fun _ => ⟨1, [], [[101, 114, 114]]⟩ }

/-- The command object returned by the foreground `run_command` call of
`run_command_no_raise`. -/
def noRaiseOut : ExecOut :=
  ((run_command noRaiseEnv (.argv ["false"]) true none true true none false).result).toOption.getD
    ⟨initState none ⟨0, [], []⟩, [], []⟩

set_option maxRecDepth 8000 in
/-- C5: a foreground `run_command` with `raiseonerr` true on a command
that exits with code 1 returns normally (`.ok`) - no exception is
raised anywhere, because the source accepts `raiseonerr` but never
consults it.  `wait()` has run before the method returns (the state is
finalized with exit code 1 stored) and the exit code and the decoded
stderr text were logged.  This exhibits the failing input for the
claim that the host facade raises on a non-zero exit code. -/
theorem run_command_no_raise :
    (run_command noRaiseEnv (.argv ["false"]) true none true true none false).result =
      .ok noRaiseOut ∧
    noRaiseOut.state.returncode = some 1 ∧
    noRaiseOut.state.stdinClosed = true ∧
    noRaiseOut.state.outJoined = true ∧
    noRaiseOut.state.errJoined = true ∧
    noRaiseOut.logs = [.returncodeMsg 1, .stderrMsg (.str "err")] ∧
    noRaiseOut.cmd = ["cd", "/tmp/t", "&&", "(", "false", ")"] := by
  decide

end Multihost

namespace Multihost

/-- C6: when the `test -f` existence probe of `get_file_contents` does
not exit 0, the call raises `IOError` and executes no further remote
command (only the probe appears in the executed-command trace); when
the probe exits 0, a `cat` read command runs (the trace is exactly
probe then read), the call returns `None` when the read exits
non-zero, and otherwise returns the accumulated bytes, decoded when a
truthy encoding argument was given (Python tests `if encoding:`). -/
theorem get_file_contents_spec (env : HostEnv) (fn : String) (enc : Option String)
    (r : ExecOut)
    (hprobe : exec_command env (.str ("test -f " ++ fn)) none false (some "utf-8") = .ok r) :
    (r.state.returncode ≠ some 0 →
       (get_file_contents env fn enc).result = .error .ioError ∧
       (get_file_contents env fn enc).execs = [r.cmd]) ∧
    (r.state.returncode = some 0 →
       ∀ r2, exec_command env (.str ("cat " ++ fn)) none false none = .ok r2 →
         (get_file_contents env fn enc).execs = [r.cmd, r2.cmd] ∧
         (∀ n, r2.state.returncode = some n → n ≠ 0 →
            (get_file_contents env fn enc).result = .ok none) ∧
         (r2.state.returncode = some 0 → pyTruthyEnc enc = false →
            (get_file_contents env fn enc).result =
              .ok (some (.bytes r2.state.out_data.flatten))) ∧
         (∀ t, pyTruthyEnc enc = true → r2.state.returncode = some 0 →
            decodeBytes r2.state.out_data.flatten = some t →
            (get_file_contents env fn enc).result = .ok (some (.str t)))) := by
  constructor
  · intro hne
    have hb : (r.state.returncode == some (0 : Int)) = false := by
      simp [hne]
    constructor <;> simp [get_file_contents, file_exists, hprobe, hb]
  · intro h0 r2 hcat
    have hb : (r.state.returncode == some (0 : Int)) = true := by
      simp [h0]
    refine ⟨?_, ?_, ?_, ?_⟩
    · cases hrc : r2.state.returncode with
      | none =>
        cases htr : pyTruthyEnc enc <;>
          cases hd : decodeBytes r2.state.out_data.flatten <;>
            simp [get_file_contents, file_exists, hprobe, hb, hcat, hrc, htr, hd]
      | some n =>
        by_cases hn : n = 0
        · subst hn
          cases htr : pyTruthyEnc enc <;>
            cases hd : decodeBytes r2.state.out_data.flatten <;>
              simp [get_file_contents, file_exists, hprobe, hb, hcat, hrc, htr, hd]
        · simp [get_file_contents, file_exists, hprobe, hb, hcat, hrc, hn]
    · intro n hrc hn
      simp [get_file_contents, file_exists, hprobe, hb, hcat, hrc, hn]
    · intro hrc htr
      simp [get_file_contents, file_exists, hprobe, hb, hcat, hrc, htr]
    · intro t htr hrc hd
      simp [get_file_contents, file_exists, hprobe, hb, hcat, hrc, htr, hd]

/-- A host on which every remote command exits with code 1 and writes
nothing, so every existence probe fails. -/
def probeFailEnv : HostEnv :=
  { hostname := "h", ssh_username := "root", ssh_key_filename := none,
    test_dir := "/tmp/t", env_sh_path := "/tmp/t/env.sh", command_prelude := "",
    oracle := fun _ => ⟨1, [], []⟩ }

/-- The result of the failing existence probe on `probeFailEnv`. -/
def probeFailOut : ExecOut :=
  (exec_command probeFailEnv (.str ("test -f " ++ "f.txt")) none false (some "utf-8")).toOption.getD
    ⟨initState none ⟨0, [], []⟩, [], []⟩

set_option maxRecDepth 8000 in
/-- Witness for C6 on a host where the probe exits 1: the call raises
`IOError` and only the probe ran. -/
theorem get_file_contents_spec_witness :
    exec_command probeFailEnv (.str ("test -f " ++ "f.txt")) none false (some "utf-8") =
      .ok probeFailOut ∧
    ((probeFailOut.state.returncode ≠ some 0 →
        (get_file_contents probeFailEnv "f.txt" none).result = .error .ioError ∧
        (get_file_contents probeFailEnv "f.txt" none).execs = [probeFailOut.cmd]) ∧
     (probeFailOut.state.returncode = some 0 →
        ∀ r2, exec_command probeFailEnv (.str ("cat " ++ "f.txt")) none false none = .ok r2 →
          (get_file_contents probeFailEnv "f.txt" none).execs = [probeFailOut.cmd, r2.cmd] ∧
          (∀ n, r2.state.returncode = some n → n ≠ 0 →
             (get_file_contents probeFailEnv "f.txt" none).result = .ok none) ∧
          (r2.state.returncode = some 0 → pyTruthyEnc (none : Option String) = false →
             (get_file_contents probeFailEnv "f.txt" none).result =
               .ok (some (.bytes r2.state.out_data.flatten))) ∧
          (∀ t, pyTruthyEnc (none : Option String) = true → r2.state.returncode = some 0 →
             decodeBytes r2.state.out_data.flatten = some t →
             (get_file_contents probeFailEnv "f.txt" none).result = .ok (some (.str t))))) :=
  ⟨by decide, get_file_contents_spec probeFailEnv "f.txt" none probeFailOut (by decide)⟩

end Multihost
